import Mathlib

/-!
Shallow embedding of the chat-widget synchronization core from
`src/components/ChatBuilder.tsx`: optimistic-send / server-echo message
reconciliation, customer identity resolution, seen-state propagation and
the conversation channel lifecycle.

Conventions of the embedding:
* JS timestamps (ISO strings) are embedded as their parsed epoch values
  (`Option Nat`); an absent field is `none`.
* JS falsiness of an optional string (`undefined`, `null`, `""`) is the
  predicate `isFalsyStr`.
* Backend calls and the wall clock are passed in as explicit arguments
  (the result the call would return), since the code is single-threaded
  and each handler performs a fixed sequence of them.
* Host-page notifications (`parent.postMessage`) and channel operations
  (`push`, `join`, `leave`) are recorded as an emitted event list `Evt`.
-/

namespace ChatWindow

/-- JS truthiness for an optional string: `undefined` / `null` / `""` are
falsy, every non-empty string is truthy. -/
def isFalsyStr : Option String → Bool
  | none => true
  | some s => s.data.isEmpty

/-- A timeline entry (`Message` in `helpers/types`), with the fields the
synchronization core reads. Timestamps are parsed epoch values. -/
structure Msg where
  id : Option Nat := none
  body : Option String := none
  file_ids : List Nat := []
  customer_id : Option String := none
  user_id : Option Nat := none
  type : Option String := none
  sent_at : Option Nat := none
  created_at : Option Nat := none
  seen_at : Option Nat := none
  deriving Repr, DecidableEq

/-- Modelled from the spec: `areDatesEqual` lives in `helpers/utils`, which
is not under `src/`; the spec says `sentAt` values are "compared as
date-equal, not raw string-equal — tolerate formatting differences".
Since timestamps are embedded as parsed date values, date equality is
value equality of the parses; an absent timestamp parses to an invalid
date, which (like JS `NaN`) is equal to nothing, itself included. -/
def areDatesEqual : Option Nat → Option Nat → Bool
  | some x, some y => x == y
  | _, _ => false

/-- Body comparison from `handleNewMessage`:
`m.body === message.body || (!m.body && !message.body)` — equal bodies
match, and an empty/absent body matches an empty/absent body. -/
def bodiesMatch (a b : Option String) : Bool :=
  a == b || (isFalsyStr a && isFalsyStr b)

/-- The search predicate of `handleNewMessage`: an existing entry `x` is
the optimistic placeholder for inbound message `m` when it has no
`created_at`, its `sent_at` is date-equal to `m`'s, and the bodies match. -/
def matchesUnsent (x m : Msg) : Bool :=
  x.created_at == none && areDatesEqual x.sent_at m.sent_at &&
    bodiesMatch x.body m.body

/-- `messages.find(...)` from `handleNewMessage`. -/
def findUnsent (msgs : List Msg) (m : Msg) : Option Msg :=
  msgs.find? (fun x => matchesUnsent x m)

/-- The timeline update of `handleNewMessage`: if an optimistic placeholder
is found, every entry whose raw `sent_at` equals the placeholder's is
replaced by the server message; otherwise the message is appended. -/
def handleNewMessageMessages (msgs : List Msg) (m : Msg) : List Msg :=
  match findUnsent msgs m with
  | some u => msgs.map (fun x => if x.sent_at == u.sent_at then m else x)
  | none => msgs ++ [m]

/-- Host-page notifications and channel operations performed by the
handlers, in program order. -/
inductive Evt where
  | customerCreated (customerId : String)
  | customerUpdated (customerId : String)
  | conversationJoin (conversationId : String) (customerId : Option String)
  | messageSent (m : Msg)
  | messageReceived (m : Msg)
  | messagesUnseen (m : Msg)
  | messagesSeenEmit
  | pushShout (m : Msg)
  | pushMessagesSeen
  | channelLeave (conversationId : String)
  | channelJoin (conversationId : String)
  | lobbyJoin (customerId : String)
  deriving Repr, DecidableEq

/-- The component state fields the synchronization core reads and writes
(`State` in `ChatBuilder.tsx`), plus the channel bookkeeping: `channel` is
the currently tracked conversation channel (`this.channel`) and
`convSubs` the set of live conversation-channel subscriptions held on the
socket. -/
structure ChatState where
  messages : List Msg := []
  customerId : Option String := none
  conversationId : Option String := none
  channel : Option String := none
  convSubs : List String := []
  isSending : Bool := false
  isOpen : Bool := false
  isGameMode : Bool := false
  deriving Repr, DecidableEq

/-- Widget configuration fields the modelled handlers read. -/
structure Config where
  accountId : String := ("")
  customerId : Option String := none
  greeting : Option String := none
  deriving Repr, DecidableEq

/-- Customer metadata (`CustomerMetadata` in `helpers/api`). -/
structure CustomerMetadata where
  email : Option String := none
  host : Option String := none
  external_id : Option String := none
  name : Option String := none
  deriving Repr, DecidableEq

/-- A conversation as returned by the backend fetch: an id and its nested
messages. -/
structure Conversation where
  id : String
  messages : List Msg := []
  deriving Repr, DecidableEq

/-- `getDefaultGreeting`: no configured greeting gives an empty list;
otherwise a single synthetic bot message stamped with the current time as
both `created_at` and `seen_at`, with no `user_id` and no `sent_at`. -/
def getDefaultGreeting (cfg : Config) (now : Nat) : List Msg :=
  match cfg.greeting with
  | none => []
  | some g =>
    if g.data.isEmpty then []
    else
      [{ type := some ("bot"), customer_id := some ("bot"), body := some g,
         created_at := some now, seen_at := some now }]

/-- `shouldMarkAsSeen`: false when the message is already seen or the page
is hidden; otherwise true exactly when the message is agent-sent (has a
`user_id`) and the widget is open. -/
def shouldMarkAsSeen (m : Msg) (isOpen : Bool) (hidden : Bool) : Bool :=
  if m.seen_at.isSome || hidden then false
  else m.user_id.isSome && isOpen

/-- The per-entry stamping step of `markMessagesAsSeen`:
`msg.seen_at ? msg : {...msg, seen_at: now}`. -/
def stampSeen (now : Nat) (m : Msg) : Msg :=
  if m.seen_at.isSome then m else { m with seen_at := some now }

/-- The early-return guard of `markMessagesAsSeen` passes when a channel is
joined and both `customerId` and `conversationId` are truthy. -/
def markGuard (s : ChatState) : Bool :=
  s.channel.isSome && !(isFalsyStr s.customerId) &&
    !(isFalsyStr s.conversationId)

/-- `markMessagesAsSeen`: when the guard passes, push a `messages:seen`
acknowledgment, notify the host page, and stamp the current time on every
timeline entry lacking `seen_at`; otherwise do nothing. -/
def markMessagesAsSeen (s : ChatState) (now : Nat) : ChatState × List Evt :=
  if markGuard s then
    ({ s with messages := s.messages.map (stampSeen now) },
     [Evt.pushMessagesSeen, Evt.messagesSeenEmit])
  else
    (s, [])

/-- `handleNewMessage`: emit `message:received`, reconcile the inbound
message into the timeline, then either mark everything seen (when the
message is seen-worthy) or, when the message was newly appended, emit a
`messages:unseen` notification. -/
def handleNewMessage (s : ChatState) (m : Msg) (hidden : Bool) (now : Nat) :
    ChatState × List Evt :=
  let unsent := findUnsent s.messages m
  let s1 := { s with messages := handleNewMessageMessages s.messages m }
  if shouldMarkAsSeen m s.isOpen hidden then
    let r := markMessagesAsSeen s1 now
    (r.1, Evt.messageReceived m :: r.2)
  else if unsent.isNone then
    (s1, [Evt.messageReceived m, Evt.messagesUnseen m])
  else
    (s1, [Evt.messageReceived m])

/-- The `shout` channel callback: clear the game-mode flag, then run
`handleNewMessage`. -/
def onShout (s : ChatState) (m : Msg) (hidden : Bool) (now : Nat) :
    ChatState × List Evt :=
  handleNewMessage { s with isGameMode := false } m hidden now

/-- `joinConversationChannel`: leave the previously tracked conversation
channel if one exists, subscribe to the new conversation topic, emit a
`conversation:join` notification. -/
def joinConversationChannel (s : ChatState) (conversationId : String)
    (customerId : Option String) : ChatState × List Evt :=
  let leaveEvts : List Evt :=
    match s.channel with
    | some c => [Evt.channelLeave c]
    | none => []
  let subs : List String :=
    match s.channel with
    | some c => s.convSubs.filter (fun x => x ≠ c)
    | none => s.convSubs
  ({ s with channel := some conversationId, convSubs := subs ++ [conversationId] },
   leaveEvts ++ [Evt.channelJoin conversationId,
                 Evt.conversationJoin conversationId customerId])

/-- Environment inputs consumed by a send: the wall clock and the ids the
backend would assign on customer / conversation creation. -/
structure SendEnv where
  now : Nat
  newCustomerId : String := ("")
  newConversationId : String := ("")
  deriving Repr, DecidableEq

/-- Modelled from the spec: `shouldActivateGameMode` lives in
`helpers/utils`, which is not under `src/`; per the spec it tests whether
the draft body "matches a configured game-mode trigger phrase". -/
def gameModeTriggerPhrase : String := ("play the game")

/-- Modelled from the spec: true exactly when the body equals the
configured game-mode trigger phrase. -/
def shouldActivateGameMode (body : Option String) : Bool :=
  body == some gameModeTriggerPhrase

/-- JS whitespace for the purposes of `String.prototype.trim`: the
ECMAScript WhiteSpace set (TAB, VT, FF, SP, NBSP, ZWNBSP and the Unicode
space-separator category Zs) together with the LineTerminator set (LF,
CR, LS, PS). -/
def isJsWhitespace (c : Char) : Bool :=
  c = (' ') || c = ('\t') || c = ('\u000B') || c = ('\u000C') ||
  c = ('\n') || c = ('\r') || c = ('\u00A0') || c = ('\uFEFF') ||
  c = ('\u1680') || (('\u2000') ≤ c && c ≤ ('\u200A')) ||
  c = ('\u2028') || c = ('\u2029') || c = ('\u202F') ||
  c = ('\u205F') || c = ('\u3000')

/-- `!body || body.trim().length === 0` from `handleSendMessage`: the body
is absent or trims to the empty string, i.e. is all whitespace. -/
def isMissingBody (body : Option String) : Bool :=
  match body with
  | none => true
  | some s => s.data.all isJsWhitespace

/-- A draft handed to `handleSendMessage` by the footer. -/
structure Draft where
  body : Option String := none
  file_ids : List Nat := []
  deriving Repr, DecidableEq

/-- `createOrUpdateCustomer` (success path): with a truthy existing
customer id, update metadata and keep that id; otherwise create a new
customer and emit `customer:created`. -/
def createOrUpdateCustomer (existingCustomerId : Option String)
    (env : SendEnv) : String × List Evt :=
  if isFalsyStr existingCustomerId then
    (env.newCustomerId, [Evt.customerCreated env.newCustomerId])
  else
    (existingCustomerId.getD (""), [])

/-- `initializeNewConversation`: create or update the customer, create a
conversation, record both ids in state and join the conversation
channel. -/
def initializeNewConversation (s : ChatState)
    (existingCustomerId : Option String) (env : SendEnv) :
    ChatState × List Evt :=
  let r0 := createOrUpdateCustomer existingCustomerId env
  let s1 := { s with customerId := some r0.1,
                     conversationId := some env.newConversationId }
  let r1 := joinConversationChannel s1 env.newConversationId (some r0.1)
  (r1.1, r0.2 ++ r1.2)

/-- The optimistic entry appended by `handleSendMessage`: the draft with
`type = customer`, the current customer id and `sent_at = now`. -/
def sendPayload (s : ChatState) (draft : Draft) (env : SendEnv) : Msg :=
  { body := draft.body, file_ids := draft.file_ids,
    customer_id := s.customerId, type := some ("customer"),
    sent_at := some env.now }

/-- The body of `handleSendMessage` past its guards: append the optimistic
entry, initialise customer and conversation when either is missing, then
push the message on the channel and emit `message:sent`. -/
def handleSendMessageCore (s : ChatState) (draft : Draft) (env : SendEnv) :
    ChatState × List Evt :=
  let payload := sendPayload s draft env
  let s1 := { s with messages := s.messages ++ [payload] }
  let r :=
    if isFalsyStr s.customerId || isFalsyStr s.conversationId then
      initializeNewConversation s1 s.customerId env
    else
      (s1, [])
  if r.1.channel.isNone then
    r
  else
    let pushed := { payload with customer_id := r.1.customerId }
    (r.1, r.2 ++ [Evt.pushShout pushed, Evt.messageSent pushed])

/-- `handleSendMessage`: no-op when a send is in flight or the draft is
empty; flip the game-mode flag on the trigger phrase; otherwise run the
send body. -/
def handleSendMessage (s : ChatState) (draft : Draft)
    (_email : Option String) (env : SendEnv) : ChatState × List Evt :=
  let shouldSkipSending := isMissingBody draft.body && draft.file_ids.isEmpty
  if s.isSending || shouldSkipSending then
    (s, [])
  else if shouldActivateGameMode draft.body then
    ({ s with isGameMode := true }, [])
  else
    handleSendMessageCore s draft env

/-- `checkForExistingCustomer`: without an `external_id` in the metadata,
return the cached id verbatim; otherwise consult the lookup result: no
match clears the active customer, a match equal to the cached id keeps it
silently, a different match adopts it and emits `customer:updated`. -/
def checkForExistingCustomer (metadata : Option CustomerMetadata)
    (defaultCustomerId : Option String) (lookupResult : Option String) :
    Option String × List Evt :=
  if isFalsyStr (metadata.bind CustomerMetadata.external_id) then
    (defaultCustomerId, [])
  else
    match lookupResult with
    | none => (none, [])
    | some mc =>
      if mc.data.isEmpty then (none, [])
      else if some mc == defaultCustomerId then (defaultCustomerId, [])
      else (some mc, [Evt.customerUpdated mc])

/-- Hexadecimal digit test for the identifier syntax check. -/
def isHexChar (c : Char) : Bool :=
  c.isDigit || (('a') ≤ c && c ≤ ('f')) || (('A') ≤ c && c ≤ ('F'))

/-- Split a character list on the hyphen separator. -/
def splitGroups : List Char → List (List Char)
  | [] => [[]]
  | c :: rest =>
    let r := splitGroups rest
    if c = ('-') then [] :: r
    else
      match r with
      | [] => [[c]]
      | g :: gs => (c :: g) :: gs

/-- Modelled from the spec: `isValidUuid` lives in `helpers/utils`, which
is not under `src/`; per the spec a cached id "is only considered if it is
a syntactically valid identifier" — the UUID shape 8-4-4-4-12 of hex
digits. -/
def isValidUuid (s : String) : Bool :=
  let groups := splitGroups s.data
  groups.map List.length == [8, 4, 4, 4, 12] &&
    groups.all (fun g => g.all isHexChar)

/-- `isValidCustomer`: the first component is the verdict, the second
records whether the backend check was consulted. A falsy or syntactically
invalid cached id is rejected locally; otherwise the backend verdict is
used, and a backend error is conservatively treated as valid. -/
def isValidCustomer (customerId : Option String)
    (backendResult : Except Unit Bool) : Bool × Bool :=
  match customerId with
  | none => (false, false)
  | some cid =>
    if cid.data.isEmpty then (false, false)
    else if !(isValidUuid cid) then (false, false)
    else
      match backendResult with
      | Except.ok v => (v, true)
      | Except.error _ => (true, true)

/-- Sort key used by `fetchLatestConversation`:
`+new Date(msg.created_at)`. -/
def createdAtKey (m : Msg) : Nat := m.created_at.getD 0

/-- Comparator of the ascending `created_at` sort. -/
def createdLe (a b : Msg) : Bool :=
  decide (createdAtKey a ≤ createdAtKey b)

/-- The ascending `created_at` sort of `fetchLatestConversation`. -/
def sortByCreatedAt (msgs : List Msg) : List Msg :=
  msgs.mergeSort createdLe

/-- The unseen-agent filter of `fetchLatestConversation`:
`!msg.seen_at && !!msg.user_id`. -/
def unseenAgentMessages (msgs : List Msg) : List Msg :=
  msgs.filter (fun m => m.seen_at == none && m.user_id != none)

/-- The branch of `fetchLatestConversation` taken when at least one
conversation exists: sort the most recent conversation's messages
ascending by `created_at`, install greeting ++ sorted messages, join the
conversation channel, and surface the oldest unseen agent message (if
any) via `messages:unseen`. -/
def fetchFoundBranch (cfg : Config) (s : ChatState)
    (customerId : Option String) (evts0 : List Evt) (latest : Conversation)
    (now : Nat) : ChatState × List Evt :=
  let formattedMessages := sortByCreatedAt latest.messages
  let s1 := { s with customerId := customerId,
                     conversationId := some latest.id,
                     messages := getDefaultGreeting cfg now ++
                       formattedMessages }
  let r1 := joinConversationChannel s1 latest.id customerId
  match unseenAgentMessages formattedMessages with
  | [] => (r1.1, evts0 ++ r1.2)
  | u :: _ => (r1.1, evts0 ++ r1.2 ++ [Evt.messagesUnseen u])

/-- `fetchLatestConversation`: resolve the customer; without one, install
the greeting-only timeline; with one but no conversations, install the
greeting and join the lobby; otherwise run the found-conversation
branch on the most recent conversation. -/
def fetchLatestConversation (cfg : Config) (s : ChatState)
    (cachedCustomerId : Option String) (metadata : Option CustomerMetadata)
    (lookupResult : Option String) (conversations : List Conversation)
    (now : Nat) : ChatState × List Evt :=
  let r0 := checkForExistingCustomer metadata cachedCustomerId lookupResult
  let s0 := { s with customerId := r0.1 }
  if isFalsyStr r0.1 then
    ({ s0 with messages := getDefaultGreeting cfg now }, r0.2)
  else
    match conversations with
    | [] =>
      ({ s0 with messages := getDefaultGreeting cfg now },
       r0.2 ++ [Evt.lobbyJoin (r0.1.getD (""))])
    | latest :: _ => fetchFoundBranch cfg s0 r0.1 r0.2 latest now

/-- Steady-state operations driving the timeline: an optimistic send, an
inbound `shout` broadcast, and a mark-all-seen trigger. -/
inductive Op where
  | send (draft : Draft) (email : Option String) (env : SendEnv)
  | shout (m : Msg) (hidden : Bool) (now : Nat)
  | seen (now : Nat)
  deriving Repr

/-- One operation step. -/
def step (s : ChatState) : Op → ChatState × List Evt
  | Op.send draft email env => handleSendMessage s draft email env
  | Op.shout m hidden now => onShout s m hidden now
  | Op.seen now => markMessagesAsSeen s now

/-- Run a sequence of operations. -/
def run (s : ChatState) : List Op → ChatState
  | [] => s
  | op :: rest => run (step s op).1 rest

/-- No existing timeline entry carries the timestamp `t`. -/
def freshSentAt (msgs : List Msg) (t : Nat) : Bool :=
  msgs.all (fun x => x.sent_at != some t)

/-- Environment validity of an operation, reflecting the single-client
protocol: a send stamps a fresh wall-clock timestamp, and an inbound
message is either the echo of a still-pending optimistic entry or carries
a `sent_at` not already in the timeline (agent / cross-tab traffic);
mark-all-seen is always valid. -/
def validOp (s : ChatState) : Op → Bool
  | Op.send _ _ env => freshSentAt s.messages env.now
  | Op.shout m _ _ =>
    (findUnsent s.messages m).isSome ||
      (match m.sent_at with
       | none => true
       | some t => freshSentAt s.messages t)
  | Op.seen _ => true

/-- Validity of a whole operation sequence, checked along the run. -/
def validOps : ChatState → List Op → Bool
  | _, [] => true
  | s, op :: rest => validOp s op && validOps (step s op).1 rest

/-- The multiset of populated `sent_at` stamps of a timeline. -/
def sentAts (msgs : List Msg) : List Nat := msgs.filterMap Msg.sent_at

/-- Channel bookkeeping consistency: the live conversation subscriptions
are exactly the tracked channel (empty when none is tracked). -/
def chanInv (s : ChatState) : Prop :=
  s.convSubs = (match s.channel with | none => [] | some c => [c])

/-- A concrete backend conversation with two out-of-order messages: an
unseen agent message created at time 3 and an already-seen one created at
time 1. -/
def sampleConversation : Conversation :=
  { id := ("conv1"),
    messages :=
      [{ body := some ("late"), user_id := some 4, created_at := some 3 },
       { body := some ("early"), user_id := some 4, created_at := some 1,
         seen_at := some 2 }] }

end ChatWindow

namespace ChatWindow

theorem stampSeen_sent_at (n : Nat) (m : Msg) :
    (stampSeen n m).sent_at = m.sent_at := by
  unfold stampSeen
  split <;> rfl

theorem stampSeen_of_seen (n : Nat) (m : Msg) (h : m.seen_at.isSome) :
    stampSeen n m = m := by
  unfold stampSeen
  simp [h]

theorem stampSeen_stampSeen (n1 n2 : Nat) (m : Msg) :
    stampSeen n2 (stampSeen n1 m) = stampSeen n1 m := by
  unfold stampSeen
  rcases h : m.seen_at with _ | t <;> simp [h]

theorem sentAts_map_of_preserve {f : Msg → Msg} {msgs : List Msg}
    (h : ∀ x ∈ msgs, (f x).sent_at = x.sent_at) :
    sentAts (msgs.map f) = sentAts msgs := by
  unfold sentAts
  rw [List.filterMap_map]
  exact List.filterMap_congr (by intro a ha; simp [h a ha])

theorem markMessagesAsSeen_messages (s : ChatState) (n : Nat) :
    (markMessagesAsSeen s n).1.messages = s.messages.map (stampSeen n) ∨
      (markMessagesAsSeen s n).1.messages = s.messages := by
  unfold markMessagesAsSeen
  split
  · exact Or.inl rfl
  · exact Or.inr rfl

theorem markMessagesAsSeen_sentAts (s : ChatState) (n : Nat) :
    sentAts (markMessagesAsSeen s n).1.messages = sentAts s.messages := by
  rcases markMessagesAsSeen_messages s n with h | h <;> rw [h]
  · exact sentAts_map_of_preserve (fun x _ => stampSeen_sent_at n x)

theorem markMessagesAsSeen_length (s : ChatState) (n : Nat) :
    (markMessagesAsSeen s n).1.messages.length = s.messages.length := by
  rcases markMessagesAsSeen_messages s n with h | h <;> simp [h]

theorem markMessagesAsSeen_fields (s : ChatState) (n : Nat) :
    (markMessagesAsSeen s n).1.customerId = s.customerId ∧
    (markMessagesAsSeen s n).1.conversationId = s.conversationId ∧
    (markMessagesAsSeen s n).1.channel = s.channel ∧
    (markMessagesAsSeen s n).1.convSubs = s.convSubs := by
  unfold markMessagesAsSeen
  split <;> exact ⟨rfl, rfl, rfl, rfl⟩

/-- Claim C5: a message qualifies as seen-worthy if and only if all four
conditions hold — no `seen_at`, page visible, agent-sent (`user_id`
present), and widget open; any single condition false makes
`shouldMarkAsSeen` return false, so mark-all-seen is not triggered for
that message. -/
theorem claim_c5 (m : Msg) (isOpen hidden : Bool) :
    shouldMarkAsSeen m isOpen hidden = true ↔
      (m.seen_at = none ∧ hidden = false ∧ m.user_id.isSome = true ∧
        isOpen = true) := by
  unfold shouldMarkAsSeen
  rcases h1 : m.seen_at with _ | t <;> rcases h2 : m.user_id with _ | u <;>
    cases hidden <;> cases isOpen <;> simp_all

/-- Claim C5 witness: at a concrete agent message, open widget and visible
page, the seen-worthy rule fires, and flipping the open flag defeats it. -/
theorem claim_c5_witness :
    (shouldMarkAsSeen { user_id := some 7 } true false = true ↔
      (({ user_id := some 7 } : Msg).seen_at = none ∧ false = false ∧
        ({ user_id := some 7 } : Msg).user_id.isSome = true ∧
        true = true)) ∧
    (shouldMarkAsSeen { user_id := some 7 } false false = true ↔
      (({ user_id := some 7 } : Msg).seen_at = none ∧ false = false ∧
        ({ user_id := some 7 } : Msg).user_id.isSome = true ∧
        false = true)) :=
  ⟨claim_c5 { user_id := some 7 } true false,
   claim_c5 { user_id := some 7 } false false⟩

/-- Claim C4: with a syntactically valid cached id, a backend error during
validation is conservatively accepted (`(true, true)`: valid, backend
consulted); an absent or syntactically invalid cached id is rejected
without any backend call (`(false, false)`). -/
theorem claim_c4 (customerId : Option String)
    (backendResult : Except Unit Bool) :
    (customerId = none →
      isValidCustomer customerId backendResult = (false, false)) ∧
    (∀ cid, customerId = some cid → isValidUuid cid = false →
      isValidCustomer customerId backendResult = (false, false)) ∧
    (∀ cid, customerId = some cid → isValidUuid cid = true →
      backendResult = Except.error () →
      isValidCustomer customerId backendResult = (true, true)) := by
  refine ⟨fun h => by simp [h, isValidCustomer], ?_, ?_⟩
  · intro cid hc hu
    subst hc
    unfold isValidCustomer
    by_cases he : cid.data.isEmpty <;> simp [he, hu]
  · intro cid hc hu hb
    subst hc
    subst hb
    unfold isValidCustomer
    have hne : cid.data.isEmpty = false := by
      cases hd : cid.data with
      | nil =>
        exfalso
        have hcid : cid = ("") := by
          cases cid
          simp_all
        rw [hcid] at hu
        exact absurd hu (by decide)
      | cons a l => rfl
    simp [hne, hu]

/-- Claim C4 witness: a concrete well-formed UUID with an erroring backend
check is accepted, and a malformed id is rejected locally. -/
theorem claim_c4_witness :
    isValidCustomer (some ("123e4567-e89b-12d3-a456-426614174000"))
        (Except.error ()) = (true, true) ∧
    isValidCustomer (some ("not-a-uuid")) (Except.error ()) =
      (false, false) :=
  ⟨(claim_c4 (some ("123e4567-e89b-12d3-a456-426614174000"))
        (Except.error ())).2.2 _ rfl (by decide) rfl,
   (claim_c4 (some ("not-a-uuid")) (Except.error ())).2.1 _ rfl (by decide)⟩

/-- Claim C7: when a send is already in flight, or the draft has neither a
non-whitespace body nor attachments, `handleSendMessage` is a no-op — the
state (timeline included) is unchanged and no channel push or host
notification is emitted. -/
theorem claim_c7 (s : ChatState) (draft : Draft) (email : Option String)
    (env : SendEnv)
    (h : s.isSending = true ∨
      (isMissingBody draft.body = true ∧ draft.file_ids = [])) :
    handleSendMessage s draft email env = (s, []) := by
  unfold handleSendMessage
  rcases h with h | ⟨h1, h2⟩
  · simp [h]
  · simp [h1, h2]

/-- Claim C7 witness: a whitespace-only draft (space, vertical tab,
no-break space — all stripped by JS trim) with no attachments is a no-op
at a concrete state. -/
theorem claim_c7_witness :
    handleSendMessage { isOpen := true } { body := some (" \u000B ") }
        none { now := 3 } = ({ isOpen := true }, []) :=
  claim_c7 { isOpen := true } { body := some (" \u000B ") } none
    { now := 3 } (Or.inr ⟨by decide, rfl⟩)

/-- Claim C3: with metadata carrying an external id, resolution has exactly
three outcomes — a failed lookup clears the active customer even when a
cached id existed; a lookup equal to the cached id keeps it with no
notification; a lookup returning a different id adopts it and emits
exactly one `customer:updated` notification with that id. Without an
external id the cached id is returned verbatim. -/
theorem claim_c3 (metadata : Option CustomerMetadata)
    (defaultCustomerId : Option String) (lookupResult : Option String) :
    (isFalsyStr (metadata.bind CustomerMetadata.external_id) = true →
      checkForExistingCustomer metadata defaultCustomerId lookupResult =
        (defaultCustomerId, [])) ∧
    (isFalsyStr (metadata.bind CustomerMetadata.external_id) = false →
      (isFalsyStr lookupResult = true →
        checkForExistingCustomer metadata defaultCustomerId lookupResult =
          (none, [])) ∧
      (∀ b, lookupResult = some b → b.data.isEmpty = false →
        (some b = defaultCustomerId →
          checkForExistingCustomer metadata defaultCustomerId lookupResult =
            (defaultCustomerId, [])) ∧
        (some b ≠ defaultCustomerId →
          checkForExistingCustomer metadata defaultCustomerId lookupResult =
            (some b, [Evt.customerUpdated b])))) := by
  constructor
  · intro h
    unfold checkForExistingCustomer
    simp [h]
  · intro h
    constructor
    · intro hl
      unfold checkForExistingCustomer
      rcases hb : lookupResult with _ | b
      · simp [h]
      · rw [hb] at hl
        unfold isFalsyStr at hl
        have hl3 : b.data = [] := by simpa using hl
        simp [h, hl, hl3]
    · intro b hb hne
      subst hb
      constructor
      · intro heq
        unfold checkForExistingCustomer
        simp [h, hne, heq]
      · intro hneq
        unfold checkForExistingCustomer
        have : (some b == defaultCustomerId) = false := by
          simpa using hneq
        simp [h, hne, this]

/-- Claim C3 witness: concrete rebind — cached id A, lookup returns B ≠ A:
resolution returns B with exactly one `customer:updated` notification;
and with the lookup returning A, A is kept silently. -/
theorem claim_c3_witness :
    checkForExistingCustomer (some { external_id := some ("ext-1") })
        (some ("A")) (some ("B")) = (some ("B"), [Evt.customerUpdated ("B")]) ∧
    checkForExistingCustomer (some { external_id := some ("ext-1") })
        (some ("A")) (some ("A")) = (some ("A"), []) :=
  ⟨((claim_c3 (some { external_id := some ("ext-1") }) (some ("A"))
        (some ("B"))).2 (by decide)).2 ("B") rfl (by decide) |>.2 (by decide),
   ((claim_c3 (some { external_id := some ("ext-1") }) (some ("A"))
        (some ("A"))).2 (by decide)).2 ("A") rfl (by decide) |>.1 rfl⟩

/-- Claim C10: the synthetic greeting always carries both `created_at` and
`seen_at` (stamped with the construction time), no `user_id` and no
`sent_at`; consequently it never matches the optimistic-placeholder search
of inbound reconciliation, survives every inbound reconciliation,
is left untouched by the mark-all-seen stamping, and never counts as an
unseen agent message. -/
theorem claim_c10 (cfg : Config) (now : Nat) (g : Msg)
    (hg : g ∈ getDefaultGreeting cfg now) :
    g.created_at = some now ∧ g.seen_at = some now ∧ g.user_id = none ∧
    g.sent_at = none ∧
    (∀ m, matchesUnsent g m = false) ∧
    (∀ msgs m, g ∈ msgs → g ∈ handleNewMessageMessages msgs m) ∧
    (∀ n, stampSeen n g = g) ∧
    (∀ msgs, g ∉ unseenAgentMessages msgs) := by
  have hfields : g.created_at = some now ∧ g.seen_at = some now ∧
      g.user_id = none ∧ g.sent_at = none := by
    unfold getDefaultGreeting at hg
    rcases hc : cfg.greeting with _ | gr
    · rw [hc] at hg; simp at hg
    · rw [hc] at hg
      by_cases he : gr.data.isEmpty
      · simp [he] at hg
      · simp only [he, if_neg, Bool.not_eq_true] at hg
        simp at hg
        subst hg
        exact ⟨rfl, rfl, rfl, rfl⟩
  obtain ⟨h1, h2, h3, h4⟩ := hfields
  refine ⟨h1, h2, h3, h4, ?_, ?_, ?_, ?_⟩
  · intro m
    unfold matchesUnsent
    simp [h1]
  · intro msgs m hmem
    unfold handleNewMessageMessages
    rcases hf : findUnsent msgs m with _ | u
    · exact List.mem_append_left _ hmem
    · have hu : matchesUnsent u m = true := by
        have := List.find?_some hf
        exact this
      have hsome : ∃ t, u.sent_at = some t := by
        unfold matchesUnsent at hu
        rcases hx : u.sent_at with _ | t
        · rw [hx] at hu
          unfold areDatesEqual at hu
          simp at hu
        · exact ⟨t, rfl⟩
      obtain ⟨t, ht⟩ := hsome
      have hne : (g.sent_at == u.sent_at) = false := by
        rw [h4, ht]
        rfl
      refine List.mem_map.mpr ⟨g, hmem, ?_⟩
      simp [hne]
  · intro n
    exact stampSeen_of_seen n g (by rw [h2]; rfl)
  · intro msgs hmem
    have := List.mem_filter.mp hmem
    rw [h2] at this
    simp at this

/-- Claim C10 witness: the greeting built from a concrete configuration has
the claimed shape and is inert for reconciliation, seen-stamping and the
unseen filter. -/
theorem claim_c10_witness :
    ({ type := some ("bot"), customer_id := some ("bot"),
       body := some ("Hi!"), created_at := some 42,
       seen_at := some 42 } : Msg).created_at = some 42 ∧
    ({ type := some ("bot"), customer_id := some ("bot"),
       body := some ("Hi!"), created_at := some 42,
       seen_at := some 42 } : Msg).seen_at = some 42 ∧
    ({ type := some ("bot"), customer_id := some ("bot"),
       body := some ("Hi!"), created_at := some 42,
       seen_at := some 42 } : Msg).user_id = none ∧
    ({ type := some ("bot"), customer_id := some ("bot"),
       body := some ("Hi!"), created_at := some 42,
       seen_at := some 42 } : Msg).sent_at = none ∧
    (∀ m, matchesUnsent
      { type := some ("bot"), customer_id := some ("bot"),
        body := some ("Hi!"), created_at := some 42,
        seen_at := some 42 } m = false) ∧
    (∀ msgs m,
      ({ type := some ("bot"), customer_id := some ("bot"),
         body := some ("Hi!"), created_at := some 42,
         seen_at := some 42 } : Msg) ∈ msgs →
      ({ type := some ("bot"), customer_id := some ("bot"),
         body := some ("Hi!"), created_at := some 42,
         seen_at := some 42 } : Msg) ∈ handleNewMessageMessages msgs m) ∧
    (∀ n, stampSeen n
      { type := some ("bot"), customer_id := some ("bot"),
        body := some ("Hi!"), created_at := some 42, seen_at := some 42 } =
      { type := some ("bot"), customer_id := some ("bot"),
        body := some ("Hi!"), created_at := some 42,
        seen_at := some 42 }) ∧
    (∀ msgs,
      ({ type := some ("bot"), customer_id := some ("bot"),
         body := some ("Hi!"), created_at := some 42,
         seen_at := some 42 } : Msg) ∉ unseenAgentMessages msgs) :=
  claim_c10 { greeting := some ("Hi!") } 42 _ (by decide)

theorem handleNewMessageMessages_length (msgs : List Msg) (m : Msg) :
    (handleNewMessageMessages msgs m).length =
      if (findUnsent msgs m).isSome then msgs.length
      else msgs.length + 1 := by
  unfold handleNewMessageMessages
  rcases h : findUnsent msgs m with _ | u <;> simp [h]

theorem handleNewMessage_messages_length (s : ChatState) (m : Msg)
    (hidden : Bool) (now : Nat) :
    (handleNewMessage s m hidden now).1.messages.length =
      (handleNewMessageMessages s.messages m).length := by
  unfold handleNewMessage
  by_cases h : shouldMarkAsSeen m s.isOpen hidden
  · simp [h, markMessagesAsSeen_length]
  · by_cases h2 : (findUnsent s.messages m).isNone <;> simp [h, h2]

/-- Claim C1: receiving an inbound message whose `(sent_at, body)` matches
an optimistic entry (no `created_at`, date-equal `sent_at`, matching body)
keeps the timeline length unchanged — the entry is replaced in place, not
appended — while an inbound message matching no optimistic entry grows the
timeline by exactly one. -/
theorem claim_c1 (s : ChatState) (m : Msg) (hidden : Bool) (now : Nat) :
    (s.messages.any (fun x => matchesUnsent x m) = true →
      (handleNewMessage s m hidden now).1.messages.length =
        s.messages.length) ∧
    (s.messages.any (fun x => matchesUnsent x m) = false →
      (handleNewMessage s m hidden now).1.messages.length =
        s.messages.length + 1) := by
  have hlen := handleNewMessage_messages_length s m hidden now
  have hmm := handleNewMessageMessages_length s.messages m
  constructor
  · intro h
    have hsome : (findUnsent s.messages m).isSome := by
      unfold findUnsent
      rw [List.find?_isSome]
      simpa [List.any_eq_true] using h
    rw [hlen, hmm, if_pos hsome]
  · intro h
    have hnone : ¬ (findUnsent s.messages m).isSome = true := by
      unfold findUnsent
      rw [List.find?_isSome]
      rintro ⟨x, hx, hpx⟩
      have hany : s.messages.any (fun x => matchesUnsent x m) = true :=
        List.any_eq_true.mpr ⟨x, hx, hpx⟩
      rw [h] at hany
      exact absurd hany (by decide)
    rw [hlen, hmm, if_neg hnone]

/-- Claim C1 witness: a concrete optimistic entry `(5, "hi")` is collapsed
by its echo (length stays 1), and a non-matching inbound message appends
(length becomes 2). -/
theorem claim_c1_witness :
    (handleNewMessage
        { messages := [{ body := some ("hi"), sent_at := some 5 }] }
        { body := some ("hi"), sent_at := some 5, created_at := some 9 }
        false 0).1.messages.length =
      ({ messages := [{ body := some ("hi"), sent_at := some 5 }] } :
        ChatState).messages.length ∧
    (handleNewMessage
        { messages := [{ body := some ("hi"), sent_at := some 5 }] }
        { body := some ("yo"), sent_at := some 6, created_at := some 9 }
        false 0).1.messages.length =
      ({ messages := [{ body := some ("hi"), sent_at := some 5 }] } :
        ChatState).messages.length + 1 :=
  ⟨(claim_c1 { messages := [{ body := some ("hi"), sent_at := some 5 }] }
      { body := some ("hi"), sent_at := some 5, created_at := some 9 }
      false 0).1 (by decide),
   (claim_c1 { messages := [{ body := some ("hi"), sent_at := some 5 }] }
      { body := some ("yo"), sent_at := some 6, created_at := some 9 }
      false 0).2 (by decide)⟩

/-- Claim C6: mark-all-seen preserves the timeline length, stamps the
current time on exactly the entries lacking `seen_at` and leaves every
already-seen entry unchanged; invoking it twice in succession leaves the
state of the first invocation intact, so no `seen_at` value set by the
first call ever changes. -/
theorem claim_c6 (s : ChatState) (n1 n2 : Nat) :
    ((markMessagesAsSeen s n1).1.messages.length = s.messages.length) ∧
    (markGuard s = true →
      ∀ (i : Nat) (m : Msg), s.messages[i]? = some m →
        (m.seen_at ≠ none →
          (markMessagesAsSeen s n1).1.messages[i]? = some m) ∧
        (m.seen_at = none →
          (markMessagesAsSeen s n1).1.messages[i]? =
            some { m with seen_at := some n1 })) ∧
    ((markMessagesAsSeen (markMessagesAsSeen s n1).1 n2).1 =
      (markMessagesAsSeen s n1).1) := by
  refine ⟨markMessagesAsSeen_length s n1, ?_, ?_⟩
  · intro hg i m hi
    have e1 : (markMessagesAsSeen s n1).1 =
        { s with messages := s.messages.map (stampSeen n1) } := by
      unfold markMessagesAsSeen
      rw [if_pos hg]
    rw [e1]
    have hmap : (s.messages.map (stampSeen n1))[i]? =
        some (stampSeen n1 m) := by
      rw [List.getElem?_map, hi]
      rfl
    constructor
    · intro hseen
      rw [show ({ s with messages := s.messages.map (stampSeen n1) } :
          ChatState).messages = s.messages.map (stampSeen n1) from rfl,
        hmap]
      have : stampSeen n1 m = m := by
        apply stampSeen_of_seen
        rcases h : m.seen_at with _ | t
        · exact absurd h hseen
        · rfl
      rw [this]
    · intro hseen
      rw [show ({ s with messages := s.messages.map (stampSeen n1) } :
          ChatState).messages = s.messages.map (stampSeen n1) from rfl,
        hmap]
      unfold stampSeen
      rw [hseen]
      rfl
  · by_cases hg : markGuard s
    · have e1 : (markMessagesAsSeen s n1).1 =
          { s with messages := s.messages.map (stampSeen n1) } := by
        unfold markMessagesAsSeen
        rw [if_pos hg]
      rw [e1]
      have hg2 : markGuard
          { s with messages := s.messages.map (stampSeen n1) } = true := hg
      unfold markMessagesAsSeen
      rw [if_pos hg2]
      have hmaps : (s.messages.map (stampSeen n1)).map (stampSeen n2) =
          s.messages.map (stampSeen n1) := by
        rw [List.map_map]
        apply List.map_congr_left
        intro a _
        exact stampSeen_stampSeen n1 n2 a
      simp [hmaps]
    · have hgb : markGuard s = false := by simpa using hg
      have e1 : (markMessagesAsSeen s n1).1 = s := by
        unfold markMessagesAsSeen
        rw [if_neg (by simp [hgb])]
      rw [e1]
      unfold markMessagesAsSeen
      rw [if_neg (by simp [hgb])]

/-- Claim C6 witness: at a concrete two-entry timeline (one already seen at
time 1, one unseen), the first call stamps only the unseen entry and a
second call changes nothing. -/
theorem claim_c6_witness :
    ((markMessagesAsSeen
        { messages := [{ body := some ("a"), seen_at := some 1 },
                       { body := some ("b"), user_id := some 2 }],
          customerId := some ("c"), conversationId := some ("v"),
          channel := some ("v") } 5).1.messages.length =
      ({ messages := [{ body := some ("a"), seen_at := some 1 },
                      { body := some ("b"), user_id := some 2 }],
         customerId := some ("c"), conversationId := some ("v"),
         channel := some ("v") } : ChatState).messages.length) ∧
    ((markMessagesAsSeen
        { messages := [{ body := some ("a"), seen_at := some 1 },
                       { body := some ("b"), user_id := some 2 }],
          customerId := some ("c"), conversationId := some ("v"),
          channel := some ("v") } 5).1.messages[0]? =
      some { body := some ("a"), seen_at := some 1 }) ∧
    ((markMessagesAsSeen
        { messages := [{ body := some ("a"), seen_at := some 1 },
                       { body := some ("b"), user_id := some 2 }],
          customerId := some ("c"), conversationId := some ("v"),
          channel := some ("v") } 5).1.messages[1]? =
      some { body := some ("b"), user_id := some 2, seen_at := some 5 }) ∧
    ((markMessagesAsSeen (markMessagesAsSeen
        { messages := [{ body := some ("a"), seen_at := some 1 },
                       { body := some ("b"), user_id := some 2 }],
          customerId := some ("c"), conversationId := some ("v"),
          channel := some ("v") } 5).1 9).1 =
      (markMessagesAsSeen
        { messages := [{ body := some ("a"), seen_at := some 1 },
                       { body := some ("b"), user_id := some 2 }],
          customerId := some ("c"), conversationId := some ("v"),
          channel := some ("v") } 5).1) := by
  have h := claim_c6
    { messages := [{ body := some ("a"), seen_at := some 1 },
                   { body := some ("b"), user_id := some 2 }],
      customerId := some ("c"), conversationId := some ("v"),
      channel := some ("v") } 5 9
  refine ⟨h.1, ?_, ?_, h.2.2⟩
  · exact (h.2.1 (by decide) 0 { body := some ("a"), seen_at := some 1 }
      rfl).1 (by decide)
  · exact (h.2.1 (by decide) 1 { body := some ("b"), user_id := some 2 }
      rfl).2 rfl

theorem sentAts_append (l1 l2 : List Msg) :
    sentAts (l1 ++ l2) = sentAts l1 ++ sentAts l2 := by
  unfold sentAts
  exact List.filterMap_append l1 l2 Msg.sent_at

theorem mem_sentAts {msgs : List Msg} {t : Nat} :
    t ∈ sentAts msgs ↔ ∃ x ∈ msgs, x.sent_at = some t := by
  unfold sentAts
  simp [List.mem_filterMap]

theorem freshSentAt_not_mem {msgs : List Msg} {t : Nat}
    (h : freshSentAt msgs t = true) : t ∉ sentAts msgs := by
  rw [mem_sentAts]
  rintro ⟨x, hx, hxt⟩
  unfold freshSentAt at h
  have hall := List.all_eq_true.mp h x hx
  simp [hxt] at hall

theorem areDatesEqual_eq {a b : Option Nat} (h : areDatesEqual a b = true) :
    a = b ∧ a.isSome = true := by
  unfold areDatesEqual at h
  rcases a with _ | x <;> rcases b with _ | y <;> simp_all

theorem matchesUnsent_dates {x m : Msg} (h : matchesUnsent x m = true) :
    areDatesEqual x.sent_at m.sent_at = true := by
  unfold matchesUnsent at h
  simp only [Bool.and_eq_true] at h
  exact h.1.2

theorem handleNewMessageMessages_sentAts_replace {msgs : List Msg} {m u : Msg}
    (hf : findUnsent msgs m = some u) :
    sentAts (handleNewMessageMessages msgs m) = sentAts msgs := by
  unfold handleNewMessageMessages
  rw [hf]
  apply sentAts_map_of_preserve
  intro x _
  by_cases hxe : (x.sent_at == u.sent_at) = true
  · have hf2 : List.find? (fun x => matchesUnsent x m) msgs = some u := hf
    have hmu : matchesUnsent u m = true := by
      have hval := List.find?_some hf2
      simpa using hval
    have hdm := (areDatesEqual_eq (matchesUnsent_dates hmu)).1
    have hxu : x.sent_at = u.sent_at := by simpa using hxe
    simp [hxe, ← hdm, hxu]
  · simp [hxe]

theorem nodup_sentAts_append_single {msgs : List Msg} {m : Msg}
    (hn : (sentAts msgs).Nodup)
    (hfresh : ∀ t, m.sent_at = some t → t ∉ sentAts msgs) :
    (sentAts (msgs ++ [m])).Nodup := by
  rw [sentAts_append]
  rcases hm : m.sent_at with _ | t
  · have : sentAts [m] = [] := by unfold sentAts; simp [hm]
    rw [this]
    simpa using hn
  · have hsm : sentAts [m] = [t] := by unfold sentAts; simp [hm]
    rw [hsm, List.nodup_append]
    refine ⟨hn, List.nodup_singleton t, ?_⟩
    intro a ha hb
    have hat : a = t := by simpa using hb
    exact hfresh t hm (hat ▸ ha)

theorem initializeNewConversation_messages (s : ChatState)
    (cid : Option String) (env : SendEnv) :
    (initializeNewConversation s cid env).1.messages = s.messages := rfl

theorem handleSendMessageCore_messages (s : ChatState) (draft : Draft)
    (env : SendEnv) :
    (handleSendMessageCore s draft env).1.messages =
      s.messages ++ [sendPayload s draft env] := by
  unfold handleSendMessageCore
  by_cases hi : (isFalsyStr s.customerId || isFalsyStr s.conversationId) = true
  · simp only [hi, if_true]
    split <;> simp [initializeNewConversation_messages]
  · simp only [Bool.not_eq_true] at hi
    simp only [hi, Bool.false_eq_true, if_false]
    split <;> rfl

theorem handleSendMessage_messages (s : ChatState) (draft : Draft)
    (email : Option String) (env : SendEnv) :
    (handleSendMessage s draft email env).1.messages = s.messages ∨
      (handleSendMessage s draft email env).1.messages =
        s.messages ++ [sendPayload s draft env] := by
  unfold handleSendMessage
  by_cases h1 :
      (s.isSending || (isMissingBody draft.body && draft.file_ids.isEmpty)) =
        true
  · left
    simp [h1]
  · simp only [Bool.not_eq_true] at h1
    by_cases h2 : shouldActivateGameMode draft.body = true
    · left
      simp [h1, h2]
    · simp only [Bool.not_eq_true] at h2
      right
      simp [h1, h2, handleSendMessageCore_messages]

theorem handleNewMessage_sentAts (s : ChatState) (m : Msg) (hidden : Bool)
    (now : Nat) :
    sentAts (handleNewMessage s m hidden now).1.messages =
      sentAts (handleNewMessageMessages s.messages m) := by
  unfold handleNewMessage
  by_cases h : shouldMarkAsSeen m s.isOpen hidden
  · simp [h, markMessagesAsSeen_sentAts]
  · by_cases h2 : (findUnsent s.messages m).isNone <;> simp [h, h2]

theorem step_preserves_sentAts_nodup (s : ChatState) (op : Op)
    (hv : validOp s op = true) (hn : (sentAts s.messages).Nodup) :
    (sentAts (step s op).1.messages).Nodup := by
  cases op with
  | send draft email env =>
    have hv2 : freshSentAt s.messages env.now = true := hv
    have hmsg := handleSendMessage_messages s draft email env
    rcases hmsg with h | h
    · rw [show (step s (Op.send draft email env)).1 =
          (handleSendMessage s draft email env).1 from rfl, h]
      exact hn
    · rw [show (step s (Op.send draft email env)).1 =
          (handleSendMessage s draft email env).1 from rfl]
      rw [show sentAts (handleSendMessage s draft email env).1.messages =
          sentAts (s.messages ++ [sendPayload s draft env]) from by rw [h]]
      apply nodup_sentAts_append_single hn
      intro t ht
      have hsp : (sendPayload s draft env).sent_at = some env.now := rfl
      rw [hsp] at ht
      have htn : env.now = t := Option.some_inj.mp ht
      rw [← htn]
      exact freshSentAt_not_mem hv2
  | shout m hidden now =>
    have hv2 : ((findUnsent s.messages m).isSome ||
        (match m.sent_at with
         | none => true
         | some t => freshSentAt s.messages t)) = true := hv
    have hstep : (step s (Op.shout m hidden now)).1 =
        (handleNewMessage { s with isGameMode := false } m hidden now).1 :=
      rfl
    rw [hstep, handleNewMessage_sentAts]
    have hmsgs : ({ s with isGameMode := false } : ChatState).messages =
        s.messages := rfl
    rw [hmsgs]
    rcases hf : findUnsent s.messages m with _ | u
    · have happ : handleNewMessageMessages s.messages m =
          s.messages ++ [m] := by
        unfold handleNewMessageMessages
        rw [hf]
      rw [happ]
      apply nodup_sentAts_append_single hn
      intro t ht
      rw [hf] at hv2
      simp only [Option.isSome_none, Bool.false_or] at hv2
      rw [ht] at hv2
      exact freshSentAt_not_mem hv2
    · rw [handleNewMessageMessages_sentAts_replace hf]
      exact hn
  | seen now =>
    rw [show (step s (Op.seen now)).1 = (markMessagesAsSeen s now).1 from rfl,
      markMessagesAsSeen_sentAts]
    exact hn

theorem run_preserves_sentAts_nodup (ops : List Op) (s : ChatState)
    (hv : validOps s ops = true) (hn : (sentAts s.messages).Nodup) :
    (sentAts (run s ops).messages).Nodup := by
  induction ops generalizing s with
  | nil => exact hn
  | cons op rest ih =>
    unfold validOps at hv
    simp only [Bool.and_eq_true] at hv
    exact ih (step s op).1 hv.2 (step_preserves_sentAts_nodup s op hv.1 hn)

theorem countP_sentAt_le_one {msgs : List Msg}
    (hn : (sentAts msgs).Nodup) (t : Nat) (p : Msg → Bool) :
    msgs.countP (fun x => x.sent_at == some t && p x) ≤ 1 := by
  induction msgs with
  | nil => simp
  | cons x l ih =>
    rw [List.countP_cons]
    rcases hx : x.sent_at with _ | t'
    · have hsl : sentAts (x :: l) = sentAts l := by
        unfold sentAts
        rw [List.filterMap_cons]
        simp [hx]
      rw [hsl] at hn
      have h0 : ((none : Option Nat) == some t && p x) = false := by simp
      simpa [h0] using ih hn
    · have hsl : sentAts (x :: l) = t' :: sentAts l := by
        unfold sentAts
        rw [List.filterMap_cons]
        simp [hx]
      rw [hsl] at hn
      have hcons := List.nodup_cons.mp hn
      by_cases hp : ((some t' : Option Nat) == some t && p x) = true
      · have ht : t' = t := by
          have hpe := hp
          simp only [Bool.and_eq_true, beq_iff_eq] at hpe
          exact Option.some_inj.mp hpe.1
        have hzero : l.countP (fun y => y.sent_at == some t && p y) = 0 := by
          rw [List.countP_eq_zero]
          intro y hy hcon
          have hyt : y.sent_at = some t := by
            have hce := hcon
            simp only [Bool.and_eq_true, beq_iff_eq] at hce
            exact hce.1
          have hmem : t ∈ sentAts l := mem_sentAts.mpr ⟨y, hy, hyt⟩
          rw [← ht] at hmem
          exact absurd hmem hcons.1
        simp [hzero]
        split <;> omega
      · simp only [Bool.not_eq_true] at hp
        have hq : ¬(t' = t ∧ p x = true) := by
          rintro ⟨h1, h2⟩
          subst h1
          simp [h2] at hp
        simpa [hq] using ih hcons.2

/-- Claim C2: along any valid sequence of sends, inbound broadcasts and
mark-all-seen operations — valid meaning each send stamps a fresh
wall-clock timestamp and each inbound message is either the echo of a
pending optimistic entry or carries a fresh `sent_at` — a timeline that
starts with pairwise-distinct `sent_at` stamps keeps at most one entry per
`(sent_at, body)` pair: the optimistic entry and its server echo occupy a
single timeline slot, never two. (Stated for all entries, which subsumes
the entries contributed by the local customer.) -/
theorem claim_c2 (s : ChatState) (ops : List Op) (t : Nat)
    (b : Option String) (hn : (sentAts s.messages).Nodup)
    (hv : validOps s ops = true) :
    (run s ops).messages.countP
      (fun x => x.sent_at == some t && bodiesMatch x.body b) ≤ 1 :=
  countP_sentAt_le_one (run_preserves_sentAts_nodup ops s hv hn) t
    (fun x => bodiesMatch x.body b)

/-- Claim C2 witness: from the empty initial state, a concrete send of
"hi" at time 5 followed by its inbound server echo leaves exactly one
entry with key `(5, "hi")`. -/
theorem claim_c2_witness :
    (sentAts ({} : ChatState).messages).Nodup ∧
    validOps {}
        [Op.send { body := some ("hi") } none
          { now := 5, newCustomerId := ("c1"), newConversationId := ("v1") },
         Op.shout
          { body := some ("hi"), customer_id := some ("c1"),
            sent_at := some 5, created_at := some 9 } true 6] = true ∧
    (run {}
        [Op.send { body := some ("hi") } none
          { now := 5, newCustomerId := ("c1"), newConversationId := ("v1") },
         Op.shout
          { body := some ("hi"), customer_id := some ("c1"),
            sent_at := some 5, created_at := some 9 } true 6]).messages.countP
      (fun x => x.sent_at == some 5 && bodiesMatch x.body (some ("hi"))) ≤
      1 :=
  ⟨by decide, by decide,
   claim_c2 {}
     [Op.send { body := some ("hi") } none
       { now := 5, newCustomerId := ("c1"), newConversationId := ("v1") },
      Op.shout
       { body := some ("hi"), customer_id := some ("c1"),
         sent_at := some 5, created_at := some 9 } true 6] 5 (some ("hi"))
     (by decide) (by decide)⟩

theorem chanInv_of_eq {s t : ChatState} (h1 : t.channel = s.channel)
    (h2 : t.convSubs = s.convSubs) (h : chanInv s) : chanInv t := by
  unfold chanInv at *
  rw [h1, h2]
  exact h

theorem joinConversationChannel_chanInv (s : ChatState) (cid : String)
    (cust : Option String) (h : chanInv s) :
    chanInv (joinConversationChannel s cid cust).1 := by
  unfold chanInv at *
  unfold joinConversationChannel
  rcases hc : s.channel with _ | c
  · rw [hc] at h
    simp_all
  · rw [hc] at h
    simp_all

theorem initializeNewConversation_chanInv (s : ChatState)
    (cid : Option String) (env : SendEnv) (h : chanInv s) :
    chanInv (initializeNewConversation s cid env).1 := by
  unfold initializeNewConversation
  exact joinConversationChannel_chanInv
    { s with customerId := some (createOrUpdateCustomer cid env).1,
             conversationId := some env.newConversationId }
    env.newConversationId (some (createOrUpdateCustomer cid env).1)
    (chanInv_of_eq rfl rfl h)

theorem handleSendMessageCore_chanInv (s : ChatState) (draft : Draft)
    (env : SendEnv) (h : chanInv s) :
    chanInv (handleSendMessageCore s draft env).1 := by
  unfold handleSendMessageCore
  by_cases hi :
      (isFalsyStr s.customerId || isFalsyStr s.conversationId) = true
  · simp only [hi, if_true]
    split
    · exact initializeNewConversation_chanInv _ _ _
        (chanInv_of_eq rfl rfl h)
    · exact initializeNewConversation_chanInv _ _ _
        (chanInv_of_eq rfl rfl h)
  · simp only [Bool.not_eq_true] at hi
    simp only [hi, Bool.false_eq_true, if_false]
    split
    · exact chanInv_of_eq rfl rfl h
    · exact chanInv_of_eq rfl rfl h

theorem handleSendMessage_chanInv (s : ChatState) (draft : Draft)
    (email : Option String) (env : SendEnv) (h : chanInv s) :
    chanInv (handleSendMessage s draft email env).1 := by
  unfold handleSendMessage
  by_cases h1 :
      (s.isSending || (isMissingBody draft.body && draft.file_ids.isEmpty)) =
        true
  · simpa [h1] using h
  · simp only [Bool.not_eq_true] at h1
    by_cases h2 : shouldActivateGameMode draft.body = true
    · simp only [h1, Bool.false_eq_true, if_false, h2, if_true]
      exact chanInv_of_eq rfl rfl h
    · simp only [Bool.not_eq_true] at h2
      simp only [h1, Bool.false_eq_true, if_false, h2]
      exact handleSendMessageCore_chanInv s draft env h

theorem handleNewMessage_chanInv (s : ChatState) (m : Msg) (hidden : Bool)
    (now : Nat) (h : chanInv s) :
    chanInv (handleNewMessage s m hidden now).1 := by
  unfold handleNewMessage
  by_cases hs : shouldMarkAsSeen m s.isOpen hidden
  · have hm := markMessagesAsSeen_fields
      { s with messages := handleNewMessageMessages s.messages m } now
    simp only [hs, if_true]
    exact chanInv_of_eq hm.2.2.1 hm.2.2.2 (chanInv_of_eq rfl rfl h)
  · simp only [Bool.not_eq_true] at hs
    simp only [hs, Bool.false_eq_true, if_false]
    split <;> exact chanInv_of_eq rfl rfl h

theorem step_preserves_chanInv (s : ChatState) (op : Op) (h : chanInv s) :
    chanInv (step s op).1 := by
  cases op with
  | send draft email env => exact handleSendMessage_chanInv s draft email env h
  | shout m hidden now =>
    exact handleNewMessage_chanInv _ m hidden now (chanInv_of_eq rfl rfl h)
  | seen now =>
    have hm := markMessagesAsSeen_fields s now
    exact chanInv_of_eq hm.2.2.1 hm.2.2.2 h

theorem run_preserves_chanInv (ops : List Op) (s : ChatState)
    (h : chanInv s) : chanInv (run s ops) := by
  induction ops generalizing s with
  | nil => exact h
  | cons op rest ih => exact ih (step s op).1 (step_preserves_chanInv s op h)

/-- Claim C9: joining a conversation channel first issues a leave of the
previously tracked conversation channel whenever one exists (the leave
strictly precedes the join in the emitted sequence), each join emits a
`conversation:join` notification, the new channel becomes the tracked one,
and along any operation sequence the set of live conversation
subscriptions never exceeds one. -/
theorem claim_c9 (s : ChatState) (cid : String) (cust : Option String)
    (ops : List Op) :
    (∀ c, s.channel = some c →
      (joinConversationChannel s cid cust).2 =
        [Evt.channelLeave c, Evt.channelJoin cid,
         Evt.conversationJoin cid cust]) ∧
    (s.channel = none →
      (joinConversationChannel s cid cust).2 =
        [Evt.channelJoin cid, Evt.conversationJoin cid cust]) ∧
    ((joinConversationChannel s cid cust).1.channel = some cid) ∧
    (chanInv s →
      chanInv (run s ops) ∧ (run s ops).convSubs.length ≤ 1) := by
  refine ⟨?_, ?_, ?_, ?_⟩
  · intro c hc
    unfold joinConversationChannel
    rw [hc]
    rfl
  · intro hc
    unfold joinConversationChannel
    rw [hc]
    rfl
  · unfold joinConversationChannel
    rfl
  · intro h
    have hrun := run_preserves_chanInv ops s h
    refine ⟨hrun, ?_⟩
    unfold chanInv at hrun
    rcases hc : (run s ops).channel with _ | c <;> rw [hc] at hrun <;>
      simp [hrun]

/-- Claim C9 witness: with channel `old` tracked, a concrete join of `new`
emits leave-then-join-then-notification, and a concrete send-and-echo run
from that state keeps at most one live conversation subscription. -/
theorem claim_c9_witness :
    (joinConversationChannel
        { channel := some ("old"), convSubs := [("old")] } ("new")
        (some ("cust"))).2 =
      [Evt.channelLeave ("old"), Evt.channelJoin ("new"),
       Evt.conversationJoin ("new") (some ("cust"))] ∧
    (joinConversationChannel
        { channel := some ("old"), convSubs := [("old")] } ("new")
        (some ("cust"))).1.channel = some ("new") ∧
    chanInv (run { channel := some ("old"), convSubs := [("old")] }
      [Op.send { body := some ("yo") } none
        { now := 2, newCustomerId := ("c2"),
          newConversationId := ("v2") }]) ∧
    (run { channel := some ("old"), convSubs := [("old")] }
      [Op.send { body := some ("yo") } none
        { now := 2, newCustomerId := ("c2"),
          newConversationId := ("v2") }]).convSubs.length ≤ 1 := by
  have h := claim_c9 { channel := some ("old"), convSubs := [("old")] }
    ("new") (some ("cust"))
    [Op.send { body := some ("yo") } none
      { now := 2, newCustomerId := ("c2"), newConversationId := ("v2") }]
  exact ⟨h.1 ("old") rfl, h.2.2.1,
    (h.2.2.2 (by unfold chanInv; rfl)).1,
    (h.2.2.2 (by unfold chanInv; rfl)).2⟩

theorem sortByCreatedAt_perm (msgs : List Msg) :
    (sortByCreatedAt msgs).Perm msgs := by
  unfold sortByCreatedAt
  exact List.mergeSort_perm msgs createdLe

theorem sortByCreatedAt_sorted (msgs : List Msg) :
    List.Pairwise (fun a b => createdAtKey a ≤ createdAtKey b)
      (sortByCreatedAt msgs) := by
  unfold sortByCreatedAt
  have htrans : ∀ a b c : Msg, createdLe a b = true → createdLe b c = true →
      createdLe a c = true := by
    intro a b c hab hbc
    unfold createdLe at *
    simp only [decide_eq_true_eq] at *
    omega
  have htotal : ∀ a b : Msg, (createdLe a b || createdLe b a) = true := by
    intro a b
    unfold createdLe
    rcases Nat.le_total (createdAtKey a) (createdAtKey b) with h | h <;>
      simp [h]
  have hp := List.sorted_mergeSort htrans htotal msgs
  exact hp.imp (fun h => by
    unfold createdLe at h
    exact of_decide_eq_true h)

theorem filter_head_min {p : Msg → Bool} :
    ∀ {l : List Msg},
      List.Pairwise (fun a b => createdAtKey a ≤ createdAtKey b) l →
      ∀ {u : Msg} {us : List Msg}, l.filter p = u :: us →
        u ∈ l ∧ p u = true ∧
          ∀ x ∈ l, p x = true → createdAtKey u ≤ createdAtKey x := by
  intro l
  induction l with
  | nil =>
    intro _ u us hu
    simp at hu
  | cons a l ih =>
    intro hs u us hu
    rw [List.pairwise_cons] at hs
    rw [List.filter_cons] at hu
    by_cases hpa : p a = true
    · rw [if_pos hpa] at hu
      injection hu with h1 h2
      subst h1
      refine ⟨List.mem_cons_self a l, hpa, ?_⟩
      intro x hx _
      rcases List.mem_cons.mp hx with h | h
      · rw [h]
      · exact hs.1 x h
    · have hpa2 : p a = false := by simpa using hpa
      rw [if_neg (by simp [hpa2])] at hu
      obtain ⟨h1, h2, h3⟩ := ih hs.2 hu
      refine ⟨List.mem_cons_of_mem a h1, h2, ?_⟩
      intro x hx hpx
      rcases List.mem_cons.mp hx with h | h
      · exact absurd (h ▸ hpx) (by simp [hpa2])
      · exact h3 x h hpx

theorem checkForExistingCustomer_no_unseen (md : Option CustomerMetadata)
    (d l : Option String) (v : Msg) :
    Evt.messagesUnseen v ∉ (checkForExistingCustomer md d l).2 := by
  unfold checkForExistingCustomer
  by_cases h : isFalsyStr (md.bind CustomerMetadata.external_id) = true
  · simp [h]
  · simp only [Bool.not_eq_true] at h
    rcases l with _ | mc
    · simp [h]
    · by_cases he : mc.data.isEmpty = true <;>
        by_cases heq : (some mc == d) = true <;> simp [h, he, heq]

theorem joinConversationChannel_no_unseen (s : ChatState) (cid : String)
    (cust : Option String) (v : Msg) :
    Evt.messagesUnseen v ∉ (joinConversationChannel s cid cust).2 := by
  unfold joinConversationChannel
  rcases hc : s.channel with _ | c <;> simp

theorem joinConversationChannel_messages (s : ChatState) (cid : String)
    (cust : Option String) :
    (joinConversationChannel s cid cust).1.messages = s.messages := rfl

theorem fetchFoundBranch_messages (cfg : Config) (s : ChatState)
    (cid : Option String) (evts0 : List Evt) (latest : Conversation)
    (now : Nat) :
    (fetchFoundBranch cfg s cid evts0 latest now).1.messages =
      getDefaultGreeting cfg now ++ sortByCreatedAt latest.messages := by
  unfold fetchFoundBranch
  rcases hu : unseenAgentMessages (sortByCreatedAt latest.messages)
    with _ | ⟨u, us⟩ <;> simp [hu, joinConversationChannel_messages]

theorem fetchFoundBranch_events_cons (cfg : Config) (s : ChatState)
    (cid : Option String) (evts0 : List Evt) (latest : Conversation)
    (now : Nat) (u : Msg) (us : List Msg)
    (hu : unseenAgentMessages (sortByCreatedAt latest.messages) = u :: us) :
    (fetchFoundBranch cfg s cid evts0 latest now).2 =
      evts0 ++ (joinConversationChannel
        { s with customerId := cid, conversationId := some latest.id,
                 messages := getDefaultGreeting cfg now ++
                   sortByCreatedAt latest.messages } latest.id cid).2 ++
        [Evt.messagesUnseen u] := by
  unfold fetchFoundBranch
  simp only [hu]

theorem fetchFoundBranch_events_nil (cfg : Config) (s : ChatState)
    (cid : Option String) (evts0 : List Evt) (latest : Conversation)
    (now : Nat)
    (hu : unseenAgentMessages (sortByCreatedAt latest.messages) = []) :
    (fetchFoundBranch cfg s cid evts0 latest now).2 =
      evts0 ++ (joinConversationChannel
        { s with customerId := cid, conversationId := some latest.id,
                 messages := getDefaultGreeting cfg now ++
                   sortByCreatedAt latest.messages } latest.id cid).2 := by
  unfold fetchFoundBranch
  simp only [hu]

theorem fetchLatestConversation_found (cfg : Config) (s : ChatState)
    (cached : Option String) (md : Option CustomerMetadata)
    (lookup : Option String) (latest : Conversation)
    (rest : List Conversation) (now : Nat)
    (hres : isFalsyStr (checkForExistingCustomer md cached lookup).1 =
      false) :
    fetchLatestConversation cfg s cached md lookup (latest :: rest) now =
      fetchFoundBranch cfg
        { s with
            customerId := (checkForExistingCustomer md cached lookup).1 }
        (checkForExistingCustomer md cached lookup).1
        (checkForExistingCustomer md cached lookup).2 latest now := by
  unfold fetchLatestConversation
  simp only [hres, Bool.false_eq_true, if_false]

/-- Claim C8: when at least one conversation is found, the installed
timeline is the greeting followed by the most recent conversation's
messages sorted ascending by `created_at` (a sorted permutation of them),
and when one of those messages lacks `seen_at` and has a `user_id`, the
single oldest such message is surfaced via a `messages:unseen`
notification; when no such message exists, no `messages:unseen`
notification is emitted. -/
theorem claim_c8 (cfg : Config) (s : ChatState) (cached : Option String)
    (md : Option CustomerMetadata) (lookup : Option String)
    (latest : Conversation) (rest : List Conversation) (now : Nat)
    (hres : isFalsyStr (checkForExistingCustomer md cached lookup).1 =
      false) :
    ∃ M : List Msg,
      M.Perm latest.messages ∧
      List.Pairwise (fun a b => createdAtKey a ≤ createdAtKey b) M ∧
      (fetchLatestConversation cfg s cached md lookup (latest :: rest)
          now).1.messages = getDefaultGreeting cfg now ++ M ∧
      (∀ u us, unseenAgentMessages M = u :: us →
        Evt.messagesUnseen u ∈
          (fetchLatestConversation cfg s cached md lookup (latest :: rest)
            now).2 ∧
        u ∈ M ∧ u.seen_at = none ∧ u.user_id ≠ none ∧
        (∀ x ∈ M, (x.seen_at == none && x.user_id != none) = true →
          createdAtKey u ≤ createdAtKey x)) ∧
      (unseenAgentMessages M = [] →
        ∀ v, Evt.messagesUnseen v ∉
          (fetchLatestConversation cfg s cached md lookup (latest :: rest)
            now).2) := by
  have hev := fetchLatestConversation_found cfg s cached md lookup latest
    rest now hres
  refine ⟨sortByCreatedAt latest.messages, sortByCreatedAt_perm _,
    sortByCreatedAt_sorted _, ?_, ?_, ?_⟩
  · rw [hev, fetchFoundBranch_messages]
  · intro u us hu
    have hmin := filter_head_min (sortByCreatedAt_sorted latest.messages)
      (show (sortByCreatedAt latest.messages).filter
        (fun m => m.seen_at == none && m.user_id != none) = u :: us from hu)
    obtain ⟨hmem, hpu, hall⟩ := hmin
    have hpu2 : u.seen_at = none ∧ u.user_id ≠ none := by
      simp only [Bool.and_eq_true, beq_iff_eq, bne_iff_ne, ne_eq] at hpu
      exact ⟨hpu.1, hpu.2⟩
    refine ⟨?_, hmem, hpu2.1, hpu2.2, hall⟩
    rw [hev, fetchFoundBranch_events_cons cfg _ _ _ latest now u us hu]
    simp
  · intro hemp v
    rw [hev, fetchFoundBranch_events_nil cfg _ _ _ latest now hemp]
    rw [List.mem_append]
    rintro (hv | hv)
    · exact checkForExistingCustomer_no_unseen md cached lookup v hv
    · exact joinConversationChannel_no_unseen _ _ _ v hv

/-- Claim C8 witness: a concrete conversation with two out-of-order
messages — an unseen agent message at time 3 and a seen one at time 1 —
yields greeting ++ sorted messages and surfaces the unseen agent message. -/
theorem claim_c8_witness :
    ∃ M : List Msg,
      M.Perm sampleConversation.messages ∧
      List.Pairwise (fun a b => createdAtKey a ≤ createdAtKey b) M ∧
      (fetchLatestConversation { greeting := some ("Hi!") } {}
          (some ("A")) none none [sampleConversation] 7).1.messages =
        getDefaultGreeting { greeting := some ("Hi!") } 7 ++ M ∧
      (∀ u us, unseenAgentMessages M = u :: us →
        Evt.messagesUnseen u ∈
          (fetchLatestConversation { greeting := some ("Hi!") } {}
            (some ("A")) none none [sampleConversation] 7).2 ∧
        u ∈ M ∧ u.seen_at = none ∧ u.user_id ≠ none ∧
        (∀ x ∈ M, (x.seen_at == none && x.user_id != none) = true →
          createdAtKey u ≤ createdAtKey x)) ∧
      (unseenAgentMessages M = [] →
        ∀ v, Evt.messagesUnseen v ∉
          (fetchLatestConversation { greeting := some ("Hi!") } {}
            (some ("A")) none none [sampleConversation] 7).2) :=
  claim_c8 { greeting := some ("Hi!") } {} (some ("A")) none none
    sampleConversation [] 7 (by decide)

end ChatWindow
